import Mathlib

/-!
Shallow embedding of the Audio/Video Summary application (src/app.py).

The application is glue code between a Streamlit UI, the OpenAI API
(transcription, summarization, embedding) and a Qdrant vector store.
Remote services are modelled as function parameters returning `Except Err`
values; the Qdrant server's behaviour (count, upsert, scroll, search) is
modelled from the spec since the server itself is not part of this
repository.  Session state and the per-tab handlers mirror `src/app.py`
line by line.
-/

namespace AVSummary

/-- Error messages from remote calls (a transport, quota or auth failure). -/
abbrev Err := String

deriving instance DecidableEq for Except

/-- Raw byte buffers (uploaded files, canonical mp3 bytes). -/
abbrev Bytes := List Nat

/-- Embedding vectors; the reference deployment uses float vectors, modelled
here as rational vectors. -/
abbrev Vec := List ℚ

/-- Constant from src/app.py line 27. -/
def TRANSCRIPTION_MODEL : String := "whisper-1"

/-- Constant from src/app.py line 28. -/
def SUMMARY_MODEL : String := "gpt-4o"

/-- Constant from src/app.py line 29. -/
def EMBEDDING_MODEL : String := "text-embedding-3-large"

/-- Constant from src/app.py line 30. -/
def EMBEDDING_DIM : Nat := 3072

/-- Constant from src/app.py line 31. -/
def COLLECTION_NAME : String := "SUMMARIES"

/-- Distance metric of a Qdrant collection (qdrant_client.models.Distance). -/
inductive Distance where
  | cosine
  | euclid
  | dot
deriving DecidableEq

/-- Vector configuration of a Qdrant collection
(qdrant_client.models.VectorParams): dimensionality and distance metric. -/
structure VectorParams where
  size : Nat
  distance : Distance
deriving DecidableEq

/-- Payload stored with a point; app.py always stores `{'summary': text}`
(line 133). -/
structure Payload where
  summary : String
deriving DecidableEq

/-- A stored point (qdrant_client.models.PointStruct): id, vector, payload. -/
structure PointStruct where
  id : Nat
  vector : Vec
  payload : Payload
deriving DecidableEq

/-- The single collection used by the app: its vector configuration and the
list of stored points, in store order. -/
structure Collection where
  config : VectorParams
  points : List PointStruct
deriving DecidableEq

/-- The Qdrant store as seen by this app: the `SUMMARIES` collection, absent
until created. -/
structure QdrantStore where
  collection : Option Collection
deriving DecidableEq

/-- Modelled from the spec: Qdrant `collection_exists` — existence check by
name (only one collection name is ever used). -/
def collection_exists (store : QdrantStore) : Bool :=
  store.collection.isSome

/-- Modelled from the spec: Qdrant `create_collection` — creates the (empty)
collection with the given vector configuration. -/
def create_collection (cfg : VectorParams) : QdrantStore :=
  { collection := some { config := cfg, points := [] } }

/-- Modelled from the spec: Qdrant exact `count` — the number of stored
points; fails if the collection is absent. -/
def count_exact (store : QdrantStore) : Except Err Nat :=
  match store.collection with
  | none => .error "collection missing"
  | some c => .ok c.points.length

/-- Modelled from the spec: Qdrant upsert semantics on the point list — if a
point with the same id exists it is overwritten in place, otherwise the new
point is appended. -/
def upsert_points (ps : List PointStruct) (p : PointStruct) : List PointStruct :=
  if ps.any (fun q => q.id == p.id) then
    ps.map (fun q => if q.id == p.id then p else q)
  else
    ps ++ [p]

/-- Modelled from the spec: Qdrant `upsert` of a single point; fails if the
collection is absent. -/
def upsert (store : QdrantStore) (p : PointStruct) : Except Err QdrantStore :=
  match store.collection with
  | none => .error "collection missing"
  | some c => .ok { collection := some { c with points := upsert_points c.points p } }

/-- Modelled from the spec: Qdrant `scroll` — unfiltered listing of up to
`limit` points in store order. -/
def scroll (store : QdrantStore) (limit : Nat) : Except Err (List PointStruct) :=
  match store.collection with
  | none => .error "collection missing"
  | some c => .ok (c.points.take limit)

/-- A search hit: point id, payload and similarity score (higher = more
similar). -/
structure ScoredPoint where
  id : Nat
  payload : Payload
  score : ℚ
deriving DecidableEq

/-- Descending-score comparison on search hits. -/
def scoreGE (a b : ScoredPoint) : Prop := b.score ≤ a.score

instance : DecidableRel scoreGE := fun a b => inferInstanceAs (Decidable (b.score ≤ a.score))

instance : IsTotal ScoredPoint scoreGE := ⟨fun a b => le_total b.score a.score⟩

instance : IsTrans ScoredPoint scoreGE := ⟨fun _ _ _ h1 h2 => le_trans h2 h1⟩

/-- Modelled from the spec: the hits produced by a nearest-neighbour search —
every stored point scored by the similarity function `sim` against the query
vector, sorted by descending similarity, truncated to `limit`. -/
def search_points (sim : Vec → Vec → ℚ) (ps : List PointStruct) (query_vector : Vec)
    (limit : Nat) : List ScoredPoint :=
  (List.insertionSort scoreGE
    (ps.map (fun p => ScoredPoint.mk p.id p.payload (sim query_vector p.vector)))).take limit

/-- Modelled from the spec: Qdrant `search` — nearest-neighbour search under
the collection's distance metric (`sim` stands for cosine similarity); fails
if the collection is absent. -/
def qdrant_search (sim : Vec → Vec → ℚ) (store : QdrantStore) (query_vector : Vec)
    (limit : Nat) : Except Err (List ScoredPoint) :=
  match store.collection with
  | none => .error "collection missing"
  | some c => .ok (search_points sim c.points query_vector limit)

/-- An embedding API request as built by `get_embedding` (src/app.py lines
87-91): model name, singleton input list, requested dimensionality. -/
structure EmbeddingRequest where
  model : String
  input : List String
  dimensions : Nat
deriving DecidableEq

/-- The request `get_embedding` sends for a given text (src/app.py lines
87-91). -/
def embeddingRequestFor (text : String) : EmbeddingRequest :=
  { model := EMBEDDING_MODEL, input := [text], dimensions := EMBEDDING_DIM }

/-- src/app.py lines 85-92: `get_embedding` — builds the embedding request
for the summary text and returns the resulting vector from the (fallible)
embedding endpoint `api`. -/
def get_embedding (api : EmbeddingRequest → Except Err Vec) (audio_summary : String) :
    Except Err Vec :=
  api (embeddingRequestFor audio_summary)

/-- src/app.py lines 107-119: `check_if_collection_exists` — creates the
collection with `{size := EMBEDDING_DIM, distance := cosine}` when it is
absent, otherwise does nothing. -/
def check_if_collection_exists (store : QdrantStore) : QdrantStore :=
  if !collection_exists store then
    create_collection { size := EMBEDDING_DIM, distance := Distance.cosine }
  else
    store

/-- src/app.py lines 122-136: `add_note_to_qdrant` — reads the exact point
count, then upserts one point with id `count + 1`, vector the embedding of
the summary text, and payload `{summary := text}`. -/
def add_note_to_qdrant (api : EmbeddingRequest → Except Err Vec) (store : QdrantStore)
    (audio_text_summary : String) : Except Err QdrantStore := do
  let total_number_of_points ← count_exact store
  let v ← get_embedding api audio_text_summary
  upsert store
    { id := total_number_of_points + 1
      vector := v
      payload := { summary := audio_text_summary } }

/-- One entry of the list/search result shown in the search tab: the stored
summary text and an optional similarity score. -/
structure SearchResult where
  text : String
  score : Option ℚ
deriving DecidableEq

/-- Python truthiness of the `query` argument of `list_notes_from_qdrant`
(default `None`; the empty string is falsy too). -/
def falsyQuery : Option String → Bool
  | none => true
  | some s => s == ""

/-- src/app.py lines 139-166: `list_notes_from_qdrant` — for a falsy query,
scroll up to 10 points and return their summaries with no score; otherwise
embed the query and run a similarity search with limit 10, returning each
hit's summary annotated with its score. -/
def list_notes_from_qdrant (api : EmbeddingRequest → Except Err Vec)
    (sim : Vec → Vec → ℚ) (store : QdrantStore) (query : Option String) :
    Except Err (List SearchResult) :=
  if falsyQuery query then do
    let summaries ← scroll store 10
    pure (summaries.map (fun s => { text := s.payload.summary, score := none }))
  else do
    let v ← get_embedding api (query.getD "")
    let summaries ← qdrant_search sim store v 10
    pure (summaries.map (fun s => { text := s.payload.summary, score := some s.score }))

/-- Streamlit session state (src/app.py lines 173-189): per-kind canonical
bytes, content fingerprint, and generated summary. -/
structure SessionState where
  audio_bytes : Bytes
  video_bytes : Bytes
  audio_bytes_md5 : String
  video_bytes_md5 : String
  audio_summary : String
  video_summary : String
deriving DecidableEq

/-- The initial session state (all fields empty, src/app.py lines 173-189). -/
def initialSession : SessionState :=
  { audio_bytes := []
    video_bytes := []
    audio_bytes_md5 := ""
    video_bytes_md5 := ""
    audio_summary := ""
    video_summary := "" }

/-- src/app.py lines 218-226: the audio upload handler — stores the converted
bytes, computes their fingerprint with `md5hex`, and if it differs from the
stored fingerprint resets the audio summary to empty and stores the new
fingerprint. -/
def audio_upload_handler (md5hex : Bytes → String) (st : SessionState)
    (converted : Bytes) : SessionState :=
  let st1 := { st with audio_bytes := converted }
  let current_md5 := md5hex st1.audio_bytes
  if current_md5 ≠ st1.audio_bytes_md5 then
    { st1 with audio_summary := "", audio_bytes_md5 := current_md5 }
  else
    st1

/-- src/app.py lines 248-256: the video upload handler — stores the converted
bytes, computes their fingerprint with `md5hex`, and if it differs from the
stored fingerprint stores the new fingerprint and resets the video summary to
empty. -/
def video_upload_handler (md5hex : Bytes → String) (st : SessionState)
    (converted : Bytes) : SessionState :=
  let st1 := { st with video_bytes := converted }
  let current_md5 := md5hex st1.video_bytes
  if current_md5 ≠ st1.video_bytes_md5 then
    { st1 with video_bytes_md5 := current_md5, video_summary := "" }
  else
    st1

/-- src/app.py lines 228-230: the "Generate Audio Summary" handler —
transcribes the stored audio bytes, summarizes the transcript, and stores the
result as the audio summary; a failing remote call propagates and leaves the
session state as it was at the point of failure. -/
def audio_generate_handler (transcribe : Bytes → Except Err String)
    (summarize : String → Except Err String) (st : SessionState) :
    SessionState × Option Err :=
  match transcribe st.audio_bytes with
  | .error e => (st, some e)
  | .ok audio_to_text =>
    match summarize audio_to_text with
    | .error e => (st, some e)
    | .ok s => ({ st with audio_summary := s }, none)

/-- src/app.py lines 258-260: the "Generate Video Summary" handler. -/
def video_generate_handler (transcribe : Bytes → Except Err String)
    (summarize : String → Except Err String) (st : SessionState) :
    SessionState × Option Err :=
  match transcribe st.video_bytes with
  | .error e => (st, some e)
  | .ok video_to_text =>
    match summarize video_to_text with
    | .error e => (st, some e)
    | .ok s => ({ st with video_summary := s }, none)

/-- src/app.py lines 240-241: the "Save Audio Summary" handler — inserts the
current audio summary into the store; the session state is not touched, and a
failing remote call leaves the store as it was. -/
def audio_save_handler (api : EmbeddingRequest → Except Err Vec) (st : SessionState)
    (store : QdrantStore) : (SessionState × QdrantStore) × Option Err :=
  match add_note_to_qdrant api store st.audio_summary with
  | .error e => ((st, store), some e)
  | .ok store1 => ((st, store1), none)

/-- src/app.py lines 270-271: the "Save Video Summary" handler. -/
def video_save_handler (api : EmbeddingRequest → Except Err Vec) (st : SessionState)
    (store : QdrantStore) : (SessionState × QdrantStore) × Option Err :=
  match add_note_to_qdrant api store st.video_summary with
  | .error e => ((st, store), some e)
  | .ok store1 => ((st, store1), none)

/-! ### Helper lemmas -/

/-- The falsy-query branch of `list_notes_from_qdrant` is exactly the scroll
listing, independent of the embedding endpoint. -/
theorem list_notes_falsy_eq (api : EmbeddingRequest → Except Err Vec)
    (sim : Vec → Vec → ℚ) (store : QdrantStore) (query : Option String)
    (hq : falsyQuery query = true) :
    list_notes_from_qdrant api sim store query =
      (scroll store 10).map
        (fun ps => ps.map (fun p => ({ text := p.payload.summary, score := none } : SearchResult))) := by
  unfold list_notes_from_qdrant
  rw [hq]
  cases hc : store.collection <;>
    simp [scroll, hc, Except.map, Except.bind, bind, pure, Except.pure]

/-- Whenever the scroll-listing expression succeeds, the result has at most
10 entries and every score is `none`. -/
theorem listing_branch_ok (store : QdrantStore) (r : List SearchResult)
    (h : (scroll store 10).map
        (fun ps => ps.map (fun p => ({ text := p.payload.summary, score := none } : SearchResult))) = .ok r) :
    r.length ≤ 10 ∧ ∀ e ∈ r, e.score = none := by
  cases hc : store.collection with
  | none => simp [scroll, hc, Except.map] at h
  | some c =>
    simp only [scroll, hc, Except.map] at h
    cases h
    constructor
    · simp
    · intro e he
      simp only [List.mem_map] at he
      obtain ⟨p, _, rfl⟩ := he
      rfl

/-! ### Claims -/

/-- Claim C1: on every upload (audio or video), if the fingerprint of the
newly converted bytes differs from the stored one, the stored summary for
that kind is reset to the empty string and the stored fingerprint is replaced
by the new one; if the fingerprints are equal, both the stored summary and
the stored fingerprint are left unchanged. -/
theorem upload_fingerprint_invalidation (md5hex : Bytes → String)
    (st : SessionState) (b : Bytes) :
    ((md5hex b ≠ st.audio_bytes_md5 →
        (audio_upload_handler md5hex st b).audio_summary = "" ∧
        (audio_upload_handler md5hex st b).audio_bytes_md5 = md5hex b) ∧
     (md5hex b = st.audio_bytes_md5 →
        (audio_upload_handler md5hex st b).audio_summary = st.audio_summary ∧
        (audio_upload_handler md5hex st b).audio_bytes_md5 = st.audio_bytes_md5)) ∧
    ((md5hex b ≠ st.video_bytes_md5 →
        (video_upload_handler md5hex st b).video_summary = "" ∧
        (video_upload_handler md5hex st b).video_bytes_md5 = md5hex b) ∧
     (md5hex b = st.video_bytes_md5 →
        (video_upload_handler md5hex st b).video_summary = st.video_summary ∧
        (video_upload_handler md5hex st b).video_bytes_md5 = st.video_bytes_md5)) := by
  unfold audio_upload_handler video_upload_handler
  refine ⟨⟨fun h => ?_, fun h => ?_⟩, ⟨fun h => ?_, fun h => ?_⟩⟩ <;> simp [h]

/-- Witness for C1 at concrete inputs: a differing fingerprint clears the
audio summary; an identical fingerprint keeps it. -/
theorem upload_fingerprint_invalidation_witness :
    (audio_upload_handler (fun _ => "h1") initialSession [1]).audio_summary = "" ∧
    (audio_upload_handler (fun _ => "")
        { initialSession with audio_summary := "S" } [1]).audio_summary = "S" := by
  constructor
  · exact ((upload_fingerprint_invalidation (fun _ => "h1") initialSession [1]).1.1
      (by decide)).1
  · exact ((upload_fingerprint_invalidation (fun _ => "")
      { initialSession with audio_summary := "S" } [1]).1.2 (by decide)).1

/-- Claim C3: `check_if_collection_exists` is idempotent — when the
collection exists it changes nothing (and, being a total function, cannot
raise); calling it twice equals calling it once, so dimensionality and
distance metric are unchanged by the second call; when the collection is
absent it creates it with dimensionality `EMBEDDING_DIM` and cosine
distance. -/
theorem ensure_collection_idempotent :
    (∀ st c, st.collection = some c → check_if_collection_exists st = st) ∧
    (∀ st, check_if_collection_exists (check_if_collection_exists st) =
      check_if_collection_exists st) ∧
    (∀ st, st.collection = none →
      check_if_collection_exists st =
        { collection := some { config := { size := EMBEDDING_DIM, distance := Distance.cosine },
                               points := [] } }) := by
  refine ⟨fun st c hc => ?_, fun st => ?_, fun st hc => ?_⟩
  · simp [check_if_collection_exists, collection_exists, hc]
  · cases hc : st.collection <;>
      simp [check_if_collection_exists, collection_exists, create_collection, hc]
  · simp [check_if_collection_exists, collection_exists, create_collection, hc]

/-- Witness for C3: on the empty store, one call creates the collection and a
second call leaves the store unchanged. -/
theorem ensure_collection_idempotent_witness :
    check_if_collection_exists { collection := none } =
      { collection := some { config := { size := EMBEDDING_DIM, distance := Distance.cosine },
                             points := [] } } ∧
    check_if_collection_exists (check_if_collection_exists { collection := none }) =
      check_if_collection_exists { collection := none } := by
  constructor
  · exact ensure_collection_idempotent.2.2 { collection := none } rfl
  · exact ensure_collection_idempotent.2.1 { collection := none }

/-- Claim C4: the unfiltered listing (`list_notes_from_qdrant` with no query,
limit 10) returns at most 10 notes, each with an absent (`none`) similarity
score. -/
theorem list_recent_limit_and_scores (api : EmbeddingRequest → Except Err Vec)
    (sim : Vec → Vec → ℚ) (store : QdrantStore) (r : List SearchResult)
    (h : list_notes_from_qdrant api sim store none = .ok r) :
    r.length ≤ 10 ∧ ∀ e ∈ r, e.score = none := by
  rw [list_notes_falsy_eq api sim store none rfl] at h
  exact listing_branch_ok store r h

/-- Witness for C4 on a store holding two notes. -/
theorem list_recent_limit_and_scores_witness :
    ∃ r, list_notes_from_qdrant (fun _ => .ok []) (fun _ _ => 0)
        { collection := some
            { config := { size := 3072, distance := Distance.cosine },
              points := [{ id := 1, vector := [1], payload := { summary := "a" } },
                         { id := 2, vector := [2], payload := { summary := "b" } }] } }
        none = .ok r ∧
      r.length ≤ 10 ∧ ∀ e ∈ r, e.score = none := by
  refine ⟨[{ text := "a", score := none }, { text := "b", score := none }], rfl, ?_⟩
  exact list_recent_limit_and_scores (fun _ => .ok []) (fun _ _ => 0)
    { collection := some
        { config := { size := 3072, distance := Distance.cosine },
          points := [{ id := 1, vector := [1], payload := { summary := "a" } },
                     { id := 2, vector := [2], payload := { summary := "b" } }] } }
    [{ text := "a", score := none }, { text := "b", score := none }] rfl

/-- Claim C7: the audio and video workflows are independently tracked — every
audio action (upload, generate, save) leaves the video bytes, fingerprint and
summary unchanged, and every video action leaves the audio fields
unchanged (the save handlers leave the whole session state unchanged). -/
theorem tabs_independent :
    (∀ f st b, (audio_upload_handler f st b).video_bytes = st.video_bytes ∧
               (audio_upload_handler f st b).video_bytes_md5 = st.video_bytes_md5 ∧
               (audio_upload_handler f st b).video_summary = st.video_summary) ∧
    (∀ tr su st, ((audio_generate_handler tr su st).1).video_bytes = st.video_bytes ∧
                 ((audio_generate_handler tr su st).1).video_bytes_md5 = st.video_bytes_md5 ∧
                 ((audio_generate_handler tr su st).1).video_summary = st.video_summary) ∧
    (∀ api st store, ((audio_save_handler api st store).1).1 = st) ∧
    (∀ f st b, (video_upload_handler f st b).audio_bytes = st.audio_bytes ∧
               (video_upload_handler f st b).audio_bytes_md5 = st.audio_bytes_md5 ∧
               (video_upload_handler f st b).audio_summary = st.audio_summary) ∧
    (∀ tr su st, ((video_generate_handler tr su st).1).audio_bytes = st.audio_bytes ∧
                 ((video_generate_handler tr su st).1).audio_bytes_md5 = st.audio_bytes_md5 ∧
                 ((video_generate_handler tr su st).1).audio_summary = st.audio_summary) ∧
    (∀ api st store, ((video_save_handler api st store).1).1 = st) := by
  refine ⟨fun f st b => ?_, fun tr su st => ?_, fun api st store => ?_,
         fun f st b => ?_, fun tr su st => ?_, fun api st store => ?_⟩
  · simp only [audio_upload_handler]
    split <;> simp
  · unfold audio_generate_handler
    cases h1 : tr st.audio_bytes with
    | error e => simp [h1]
    | ok t => cases h2 : su t <;> simp [h1, h2]
  · unfold audio_save_handler
    cases h1 : add_note_to_qdrant api store st.audio_summary <;> simp [h1]
  · simp only [video_upload_handler]
    split <;> simp
  · unfold video_generate_handler
    cases h1 : tr st.video_bytes with
    | error e => simp [h1]
    | ok t => cases h2 : su t <;> simp [h1, h2]
  · unfold video_save_handler
    cases h1 : add_note_to_qdrant api store st.video_summary <;> simp [h1]

/-- Claim C9: the embedding dimensionality sent in every embedding request
and the vector size configured at every collection creation are the same
shared constant `EMBEDDING_DIM = 3072` (collection creation also fixes
cosine distance). -/
theorem embedding_dim_consistency :
    EMBEDDING_DIM = 3072 ∧
    (∀ t, (embeddingRequestFor t).dimensions = EMBEDDING_DIM) ∧
    (∀ st, st.collection = none →
      ∃ c, (check_if_collection_exists st).collection = some c ∧
        c.config.size = EMBEDDING_DIM ∧ c.config.distance = Distance.cosine) := by
  refine ⟨rfl, fun t => rfl, fun st hc => ?_⟩
  refine ⟨{ config := { size := EMBEDDING_DIM, distance := Distance.cosine }, points := [] },
    ?_, rfl, rfl⟩
  simp [check_if_collection_exists, collection_exists, create_collection, hc]

/-- Witness for C9: the request built for a concrete text and the collection
created on the empty store both carry dimensionality 3072. -/
theorem embedding_dim_consistency_witness :
    (embeddingRequestFor "S").dimensions = 3072 ∧
    ∃ c, (check_if_collection_exists { collection := none }).collection = some c ∧
      c.config.size = 3072 ∧ c.config.distance = Distance.cosine := by
  constructor
  · rw [embedding_dim_consistency.2.1 "S"]
    exact embedding_dim_consistency.1
  · obtain ⟨c, h1, h2, h3⟩ := embedding_dim_consistency.2.2 { collection := none } rfl
    exact ⟨c, h1, by rw [h2]; exact embedding_dim_consistency.1, h3⟩

/-- Claim C10: a falsy (empty-string) query takes the unfiltered listing
branch — the result does not depend on the embedding endpoint at all, equals
the scroll listing, and has at most 10 entries each with a `none` score. -/
theorem empty_query_uses_listing (sim : Vec → Vec → ℚ) (store : QdrantStore) :
    (∀ api₁ api₂ : EmbeddingRequest → Except Err Vec,
      list_notes_from_qdrant api₁ sim store (some "") =
        list_notes_from_qdrant api₂ sim store (some "")) ∧
    (∀ api : EmbeddingRequest → Except Err Vec,
      list_notes_from_qdrant api sim store (some "") =
        (scroll store 10).map
          (fun ps => ps.map (fun p => ({ text := p.payload.summary, score := none } : SearchResult)))) ∧
    (∀ (api : EmbeddingRequest → Except Err Vec) r,
      list_notes_from_qdrant api sim store (some "") = .ok r →
        r.length ≤ 10 ∧ ∀ e ∈ r, e.score = none) := by
  refine ⟨fun api₁ api₂ => ?_, fun api => ?_, fun api r h => ?_⟩
  · rw [list_notes_falsy_eq api₁ sim store (some "") rfl,
        list_notes_falsy_eq api₂ sim store (some "") rfl]
  · exact list_notes_falsy_eq api sim store (some "") rfl
  · rw [list_notes_falsy_eq api sim store (some "") rfl] at h
    exact listing_branch_ok store r h

/-- Witness for C10: on a concrete store, two different embedding endpoints
(one always failing) give the same empty-query result, and that result obeys
the listing bounds. -/
theorem empty_query_uses_listing_witness :
    list_notes_from_qdrant (fun _ => .error "down") (fun _ _ => 0)
        { collection := some
            { config := { size := 3072, distance := Distance.cosine },
              points := [{ id := 1, vector := [1], payload := { summary := "a" } }] } }
        (some "") =
      list_notes_from_qdrant (fun _ => .ok [1]) (fun _ _ => 0)
        { collection := some
            { config := { size := 3072, distance := Distance.cosine },
              points := [{ id := 1, vector := [1], payload := { summary := "a" } }] } }
        (some "") ∧
    [({ text := "a", score := none } : SearchResult)].length ≤ 10 ∧
    ∀ e ∈ [({ text := "a", score := none } : SearchResult)], e.score = none := by
  constructor
  · exact (empty_query_uses_listing (fun _ _ => 0)
      { collection := some
          { config := { size := 3072, distance := Distance.cosine },
            points := [{ id := 1, vector := [1], payload := { summary := "a" } }] } }).1
      (fun _ => .error "down") (fun _ => .ok [1])
  · exact (empty_query_uses_listing (fun _ _ => 0)
      { collection := some
          { config := { size := 3072, distance := Distance.cosine },
            points := [{ id := 1, vector := [1], payload := { summary := "a" } }] } }).2.2
      (fun _ => .ok [1]) [{ text := "a", score := none }] rfl

/-- Claim C6: a failing remote call during a generate or save action leaves
the session state (summary, bytes, fingerprint for both kinds) exactly as it
was before the action; for save actions the store is also unchanged. -/
theorem remote_failure_preserves_session :
    (∀ tr su st, ((audio_generate_handler tr su st).2).isSome = true →
      (audio_generate_handler tr su st).1 = st) ∧
    (∀ tr su st, ((video_generate_handler tr su st).2).isSome = true →
      (video_generate_handler tr su st).1 = st) ∧
    (∀ api st store, ((audio_save_handler api st store).2).isSome = true →
      (audio_save_handler api st store).1 = (st, store)) ∧
    (∀ api st store, ((video_save_handler api st store).2).isSome = true →
      (video_save_handler api st store).1 = (st, store)) := by
  refine ⟨fun tr su st h => ?_, fun tr su st h => ?_,
         fun api st store h => ?_, fun api st store h => ?_⟩
  · unfold audio_generate_handler at *
    cases h1 : tr st.audio_bytes with
    | error e => simp [h1]
    | ok t => cases h2 : su t with
      | error e => simp [h1, h2]
      | ok s => simp [h1, h2] at h
  · unfold video_generate_handler at *
    cases h1 : tr st.video_bytes with
    | error e => simp [h1]
    | ok t => cases h2 : su t with
      | error e => simp [h1, h2]
      | ok s => simp [h1, h2] at h
  · unfold audio_save_handler at *
    cases h1 : add_note_to_qdrant api store st.audio_summary with
    | error e => simp [h1]
    | ok s => simp [h1] at h
  · unfold video_save_handler at *
    cases h1 : add_note_to_qdrant api store st.video_summary with
    | error e => simp [h1]
    | ok s => simp [h1] at h

/-- Witness for C6: with a failing transcription client and a failing
embedding endpoint, the generate and save actions leave concrete session
state unchanged. -/
theorem remote_failure_preserves_session_witness :
    (audio_generate_handler (fun _ => .error "quota") (fun t => .ok t)
      initialSession).1 = initialSession ∧
    (audio_save_handler (fun _ => .error "network")
      { initialSession with audio_summary := "S" } { collection := none }).1 =
      ({ initialSession with audio_summary := "S" }, { collection := none }) := by
  constructor
  · exact remote_failure_preserves_session.1 (fun _ => .error "quota") (fun t => .ok t)
      initialSession rfl
  · exact remote_failure_preserves_session.2.2.1 (fun _ => .error "network")
      { initialSession with audio_summary := "S" } { collection := none } rfl

/-- Upserting a point whose id does not occur in the list appends it. -/
theorem upsert_points_fresh (ps : List PointStruct) (p : PointStruct)
    (hfresh : ∀ q ∈ ps, q.id ≠ p.id) :
    upsert_points ps p = ps ++ [p] := by
  unfold upsert_points
  rw [if_neg]
  simp only [List.any_eq_true, beq_iff_eq, not_exists]
  intro q
  rw [not_and]
  exact fun hq => hfresh q hq

/-- Claim C2: `add_note_to_qdrant` reads the exact point count of the
collection, and upserts exactly one point whose id is `count + 1`, whose
vector is the embedding returned for the summary text, and whose payload is
`{summary := s}`. -/
theorem add_note_spec (api : EmbeddingRequest → Except Err Vec) (c : Collection)
    (s : String) (v : Vec)
    (hembed : api (embeddingRequestFor s) = .ok v) :
    count_exact { collection := some c } = .ok c.points.length ∧
    add_note_to_qdrant api { collection := some c } s =
      .ok { collection := some
              { config := c.config,
                points := upsert_points c.points
                  { id := c.points.length + 1, vector := v, payload := { summary := s } } } } := by
  constructor
  · rfl
  · unfold add_note_to_qdrant get_embedding
    simp [count_exact, upsert, hembed, Except.bind, bind]

/-- Witness for C2: inserting into a concrete one-note collection stores a
second note with id 2, the embedding vector, and the summary payload. -/
theorem add_note_spec_witness :
    add_note_to_qdrant (fun _ => .ok [5])
      { collection := some
          { config := { size := 3072, distance := Distance.cosine },
            points := [{ id := 1, vector := [3], payload := { summary := "a" } }] } } "S" =
      .ok { collection := some
              { config := { size := 3072, distance := Distance.cosine },
                points := [{ id := 1, vector := [3], payload := { summary := "a" } },
                           { id := 2, vector := [5], payload := { summary := "S" } }] } } := by
  have h := (add_note_spec (fun _ => .ok [5])
    { config := { size := 3072, distance := Distance.cosine },
      points := [{ id := 1, vector := [3], payload := { summary := "a" } }] } "S" [5] rfl).2
  rw [h]
  rfl

/-- Claim C8: the save action is not idempotent — if every stored id is at
most the current count (an invariant of the app's own id scheme), then two
consecutive saves of the same unchanged summary text `s` both succeed and
append two distinct notes, each with payload `{summary := s}`, the first with
id `count + 1` and the second with id `count + 2` (the successor of the
then-current count). -/
theorem save_twice_appends (api : EmbeddingRequest → Except Err Vec) (s : String)
    (v : Vec) (c : Collection) (sess : SessionState)
    (hembed : api (embeddingRequestFor s) = .ok v)
    (hids : ∀ p ∈ c.points, p.id ≤ c.points.length)
    (hsess : sess.audio_summary = s) :
    ∃ store1 : QdrantStore,
      audio_save_handler api sess { collection := some c } = ((sess, store1), none) ∧
      audio_save_handler api sess store1 =
        ((sess, { collection := some
                    { config := c.config,
                      points := c.points ++
                        [{ id := c.points.length + 1, vector := v, payload := { summary := s } },
                         { id := c.points.length + 2, vector := v, payload := { summary := s } }] } }),
         none) := by
  have hfresh1 : ∀ q ∈ c.points,
      q.id ≠ c.points.length + 1 := by
    intro q hq
    have := hids q hq
    omega
  have h1 : add_note_to_qdrant api { collection := some c } s =
      .ok { collection := some
              { config := c.config,
                points := c.points ++
                  [{ id := c.points.length + 1, vector := v, payload := { summary := s } }] } } := by
    unfold add_note_to_qdrant get_embedding
    have hup := upsert_points_fresh c.points
      { id := c.points.length + 1, vector := v, payload := { summary := s } } hfresh1
    simp [count_exact, upsert, hembed, Except.bind, bind, hup]
  refine ⟨{ collection := some
              { config := c.config,
                points := c.points ++
                  [{ id := c.points.length + 1, vector := v, payload := { summary := s } }] } },
    ?_, ?_⟩
  · unfold audio_save_handler
    rw [hsess, h1]
  · have hfresh2 : ∀ q ∈ c.points ++
        [({ id := c.points.length + 1, vector := v, payload := { summary := s } } : PointStruct)],
        q.id ≠ (c.points ++
          [({ id := c.points.length + 1, vector := v, payload := { summary := s } } : PointStruct)]).length + 1 := by
      intro q hq
      rw [List.mem_append] at hq
      rcases hq with hq | hq
      · have := hids q hq
        simp only [List.length_append, List.length_cons, List.length_nil]
        omega
      · simp only [List.mem_singleton] at hq
        subst hq
        simp only [List.length_append, List.length_cons, List.length_nil]
        omega
    have h2 : add_note_to_qdrant api
        { collection := some
            { config := c.config,
              points := c.points ++
                [{ id := c.points.length + 1, vector := v, payload := { summary := s } }] } } s =
        .ok { collection := some
                { config := c.config,
                  points := c.points ++
                    [{ id := c.points.length + 1, vector := v, payload := { summary := s } },
                     { id := c.points.length + 2, vector := v, payload := { summary := s } }] } } := by
      unfold add_note_to_qdrant get_embedding
      have hup2 := upsert_points_fresh
        (c.points ++ [({ id := c.points.length + 1, vector := v, payload := { summary := s } } : PointStruct)])
        { id := (c.points ++
            [({ id := c.points.length + 1, vector := v, payload := { summary := s } } : PointStruct)]).length + 1,
          vector := v, payload := { summary := s } } hfresh2
      simp only [count_exact, upsert, hembed, Except.bind, bind, hup2]
      simp [List.length_append, List.append_assoc]
    unfold audio_save_handler
    rw [hsess, h2]

/-- Witness for C8: saving the same summary twice into a concrete empty
collection appends two notes with ids 1 and 2 and identical payloads. -/
theorem save_twice_appends_witness :
    ∃ store1 : QdrantStore,
      audio_save_handler (fun _ => .ok [7])
        { initialSession with audio_summary := "S" }
        { collection := some { config := { size := 3072, distance := Distance.cosine },
                               points := [] } } = (({ initialSession with audio_summary := "S" }, store1), none) ∧
      audio_save_handler (fun _ => .ok [7])
        { initialSession with audio_summary := "S" } store1 =
        (({ initialSession with audio_summary := "S" },
          { collection := some
              { config := { size := 3072, distance := Distance.cosine },
                points := [{ id := 1, vector := [7], payload := { summary := "S" } },
                           { id := 2, vector := [7], payload := { summary := "S" } }] } }),
         none) := by
  have h := save_twice_appends (fun _ => .ok [7]) "S" [7]
    { config := { size := 3072, distance := Distance.cosine }, points := [] }
    { initialSession with audio_summary := "S" } rfl (by simp) rfl
  obtain ⟨store1, h1, h2⟩ := h
  exact ⟨store1, h1, h2⟩

/-- A search-hit list never exceeds the requested limit. -/
theorem search_points_length_le (sim : Vec → Vec → ℚ) (ps : List PointStruct)
    (qv : Vec) (limit : Nat) :
    (search_points sim ps qv limit).length ≤ limit :=
  List.length_take_le limit _

/-- Every search hit comes from a stored point, scored against the query
vector. -/
theorem search_points_mem (sim : Vec → Vec → ℚ) (ps : List PointStruct)
    (qv : Vec) (limit : Nat) (e : ScoredPoint)
    (he : e ∈ search_points sim ps qv limit) :
    ∃ p ∈ ps, e = { id := p.id, payload := p.payload, score := sim qv p.vector } := by
  unfold search_points at he
  have h1 := List.take_subset limit _ he
  have h2 := (List.perm_insertionSort scoreGE _).subset h1
  obtain ⟨p, hp, rfl⟩ := List.mem_map.mp h2
  exact ⟨p, hp, rfl⟩

/-- Search hits are sorted by descending score. -/
theorem search_points_sorted (sim : Vec → Vec → ℚ) (ps : List PointStruct)
    (qv : Vec) (limit : Nat) :
    List.Sorted scoreGE (search_points sim ps qv limit) :=
  (List.sorted_insertionSort scoreGE _).sublist (List.take_sublist limit _)

/-- Claim C5: for a non-empty query whose embedding succeeds, the search
operation returns at most 10 results; every result carries the stored summary
text of some note in the collection, annotated with that note's similarity
score against the query embedding; and the results are ordered by descending
similarity. -/
theorem search_spec (api : EmbeddingRequest → Except Err Vec) (sim : Vec → Vec → ℚ)
    (c : Collection) (q : String) (v : Vec) (rs : List SearchResult)
    (hq : q ≠ "")
    (hembed : api (embeddingRequestFor q) = .ok v)
    (h : list_notes_from_qdrant api sim { collection := some c } (some q) = .ok rs) :
    rs.length ≤ 10 ∧
    (∀ e ∈ rs, ∃ p ∈ c.points, e.text = p.payload.summary ∧ e.score = some (sim v p.vector)) ∧
    List.Sorted (fun a b : SearchResult => b.score.getD 0 ≤ a.score.getD 0) rs := by
  have hfalsy : falsyQuery (some q) = false := by
    simp [falsyQuery, hq]
  unfold list_notes_from_qdrant at h
  rw [hfalsy] at h
  simp only [Bool.false_eq_true, if_false, get_embedding, Option.getD_some, hembed,
    qdrant_search, Except.bind, bind, pure, Except.pure, Except.ok.injEq] at h
  subst h
  refine ⟨?_, ?_, ?_⟩
  · rw [List.length_map]
    exact search_points_length_le sim c.points v 10
  · intro e he
    obtain ⟨sp, hsp, rfl⟩ := List.mem_map.mp he
    obtain ⟨p, hp, rfl⟩ := search_points_mem sim c.points v 10 sp hsp
    exact ⟨p, hp, rfl, rfl⟩
  · have hs := search_points_sorted sim c.points v 10
    refine List.pairwise_map.mpr ?_
    exact hs.imp (fun {a b} hab => hab)

/-- Witness for C5: searching a concrete two-note collection with a
head-of-vector similarity returns both notes sorted by descending score. -/
theorem search_spec_witness :
    ∃ rs, list_notes_from_qdrant (fun _ => .ok [1]) (fun _ w => w.headD 0)
        { collection := some
            { config := { size := 3072, distance := Distance.cosine },
              points := [{ id := 1, vector := [2], payload := { summary := "a" } },
                         { id := 2, vector := [9], payload := { summary := "b" } }] } }
        (some "Q") = .ok rs ∧
      rs.length ≤ 10 ∧
      (∀ e ∈ rs, ∃ p ∈ [({ id := 1, vector := [2], payload := { summary := "a" } } : PointStruct),
                        { id := 2, vector := [9], payload := { summary := "b" } }],
        e.text = p.payload.summary ∧ e.score = some (p.vector.headD 0)) ∧
      List.Sorted (fun a b : SearchResult => b.score.getD 0 ≤ a.score.getD 0) rs := by
  refine ⟨[{ text := "b", score := some 9 }, { text := "a", score := some 2 }], ?hok, ?_⟩
  case hok => decide
  exact search_spec (fun _ => .ok [1]) (fun _ w => w.headD 0)
    { config := { size := 3072, distance := Distance.cosine },
      points := [{ id := 1, vector := [2], payload := { summary := "a" } },
                 { id := 2, vector := [9], payload := { summary := "b" } }] }
    "Q" [1] [{ text := "b", score := some 9 }, { text := "a", score := some 2 }]
    (by decide) rfl (by decide)

end AVSummary
